import Mathlib

/-!
# Verification of the event-booking reservation core

Shallow embedding of the reservation engine of the `event-booking-api`
repository: the PostgreSQL tables `events` and `bookings` (with the
`unique_user_event` constraint), `BookingRepository`, `EventRepository`,
`BookingService` and the zod `createBookingSchema` validator.

The per-event `SELECT ... FOR UPDATE` lock serializes concurrent
`createBooking` transactions on the same event, so a concurrent execution
is modelled as a sequence of atomic transaction steps on the database
state.  Transaction rollback is modelled by returning the unchanged input
state on every error path, exactly mirroring the `ROLLBACK` in
`bookingRepository.ts`.
-/

namespace EventBooking

/-- Row of the `events` table: `id SERIAL PRIMARY KEY`, `name VARCHAR(255)`,
`total_seats INT CHECK (total_seats > 0)` (schema in the migration file). -/
structure Event where
  id : Int
  name : String
  total_seats : Nat
  deriving Repr, DecidableEq

/-- Row of the `bookings` table: `id SERIAL PRIMARY KEY`,
`event_id INT REFERENCES events(id)`, `user_id VARCHAR(255)`. -/
structure Booking where
  id : Nat
  event_id : Int
  user_id : String
  deriving Repr, DecidableEq

/-- The application's typed errors (`src/utils/errors.ts`): `NotFoundError`
(404), `BadRequestError` (400), `ConflictError` (409), `InternalServerError`
(500), each carrying its message. -/
inductive AppError where
  | notFound (message : String)
  | badRequest (message : String)
  | conflict (message : String)
  | internal (message : String)
  deriving Repr, DecidableEq

/-- A low-level PostgreSQL error, identified by its SQLSTATE code, as
inspected by the repository's `error.code === '23505'` check. -/
structure DBError where
  code : String
  deriving Repr, DecidableEq

/-- The database state: the two tables and the `SERIAL` counter for
`bookings.id`.  Bookings are kept newest-first, matching the
`ORDER BY created_at DESC` read order for rows inserted at distinct
timestamps. -/
structure DBState where
  events : List Event
  bookings : List Booking
  nextBookingId : Nat
  deriving Repr, DecidableEq

/-- `SELECT ... FROM events WHERE id = $1` — the row with the given id,
if any (ids are a primary key, so at most one row matches). -/
def findEvent (s : DBState) (eventId : Int) : Option Event :=
  s.events.find? (fun e => e.id == eventId)

/-- `SELECT COUNT(*) FROM bookings WHERE event_id = $1`. -/
def countBookings (s : DBState) (eventId : Int) : Nat :=
  (s.bookings.filter (fun b => b.event_id == eventId)).length

/-- `SELECT EXISTS(SELECT 1 FROM bookings WHERE event_id = $1 AND
user_id = $2)` — also the predicate guarded by the storage-layer
`unique_user_event` constraint. -/
def existsBooking (s : DBState) (eventId : Int) (userId : String) : Bool :=
  s.bookings.any (fun b => b.event_id == eventId && b.user_id == userId)

/-- `INSERT INTO bookings (event_id, user_id) VALUES ($1, $2) RETURNING ...`
at the storage layer: the `unique_user_event` UNIQUE constraint makes the
insert fail with SQLSTATE `23505` when a row with the same
`(event_id, user_id)` already exists; otherwise the row is inserted with
the next `SERIAL` id. -/
def dbInsertBooking (s : DBState) (eventId : Int) (userId : String) :
    Except DBError (Booking × DBState) :=
  if existsBooking s eventId userId then
    Except.error { code := "23505" }
  else
    let b : Booking := { id := s.nextBookingId, event_id := eventId, user_id := userId }
    Except.ok (b, { s with bookings := b :: s.bookings, nextBookingId := s.nextBookingId + 1 })

namespace BookingRepository

/-- `BookingRepository.createBooking` (`src/repositories/bookingRepository.ts`):
one transaction holding the `FOR UPDATE` lock on the event row:
1. `SELECT ... FOR UPDATE`; no row → `NotFoundError`;
2. count current bookings for the event;
3. `count >= total_seats` → `ConflictError "No seats available for this event"`;
4. insert; a unique-constraint failure (`error.code === '23505'`) is
   translated to `ConflictError "User has already booked this event"`;
5. `COMMIT` on success, `ROLLBACK` (state unchanged) on every error. -/
def createBooking (s : DBState) (eventId : Int) (userId : String) :
    Except AppError Booking × DBState :=
  match findEvent s eventId with
  | none =>
      (Except.error (AppError.notFound
        ("Event with id " ++ toString eventId ++ " not found")), s)
  | some event =>
      if countBookings s eventId ≥ event.total_seats then
        (Except.error (AppError.conflict "No seats available for this event"), s)
      else
        match dbInsertBooking s eventId userId with
        | Except.error dbErr =>
            if dbErr.code == "23505" then
              (Except.error (AppError.conflict "User has already booked this event"), s)
            else
              (Except.error (AppError.internal dbErr.code), s)
        | Except.ok (b, s2) => (Except.ok b, s2)

/-- `SELECT ... FROM bookings WHERE event_id = $1 ORDER BY created_at DESC`. -/
def getBookingsByEventId (s : DBState) (eventId : Int) : List Booking :=
  s.bookings.filter (fun b => b.event_id == eventId)

/-- `SELECT ... FROM bookings WHERE user_id = $1 ORDER BY created_at DESC`. -/
def getBookingsByUserId (s : DBState) (userId : String) : List Booking :=
  s.bookings.filter (fun b => b.user_id == userId)

/-- `BookingRepository.checkBookingExists`. -/
def checkBookingExists (s : DBState) (eventId : Int) (userId : String) : Bool :=
  existsBooking s eventId userId

end BookingRepository

namespace EventRepository

/-- `EventRepository.getEventById`: `SELECT ... FROM events WHERE id = $1`,
`NotFoundError` when no row is returned. -/
def getEventById (s : DBState) (id : Int) : Except AppError Event :=
  match findEvent s id with
  | none =>
      Except.error (AppError.notFound ("Event with id " ++ toString id ++ " not found"))
  | some e => Except.ok e

/-- `EventRepository.getAvailableSeats`: `SELECT (e.total_seats - COUNT(b.id))
FROM events e LEFT JOIN bookings b ON e.id = b.event_id WHERE e.id = $1
GROUP BY e.id, e.total_seats`.  The LEFT JOIN yields one row (whose count may
be 0) iff the event exists; no row → `NotFoundError`. -/
def getAvailableSeats (s : DBState) (eventId : Int) : Except AppError Int :=
  match findEvent s eventId with
  | none =>
      Except.error (AppError.notFound ("Event with id " ++ toString eventId ++ " not found"))
  | some e => Except.ok ((e.total_seats : Int) - (countBookings s eventId : Int))

end EventRepository

namespace BookingService

/-- `BookingService.createBooking`: verifies the event's existence via
`eventRepository.getEventById`, then delegates to
`bookingRepository.createBooking`.  Performs no input validation. -/
def createBooking (s : DBState) (eventId : Int) (userId : String) :
    Except AppError Booking × DBState :=
  match EventRepository.getEventById s eventId with
  | Except.error e => (Except.error e, s)
  | Except.ok _ => BookingRepository.createBooking s eventId userId

/-- `BookingService.getBookingsByEventId`: verifies the event's existence
first, so an unknown event yields `NotFoundError` rather than `[]`. -/
def getBookingsByEventId (s : DBState) (eventId : Int) :
    Except AppError (List Booking) :=
  match EventRepository.getEventById s eventId with
  | Except.error e => Except.error e
  | Except.ok _ => Except.ok (BookingRepository.getBookingsByEventId s eventId)

/-- `BookingService.getBookingsByUserId`: no existence check — always
returns the (possibly empty) list. -/
def getBookingsByUserId (s : DBState) (userId : String) :
    Except AppError (List Booking) :=
  Except.ok (BookingRepository.getBookingsByUserId s userId)

end BookingService

/-- The zod `createBookingSchema` (`src/validators/index.ts`):
`event_id` a positive integer, `user_id` a string of length 1..255.
Applied by the `validateBody` middleware before the controller runs. -/
def createBookingSchemaCheck (event_id : Int) (user_id : String) : Bool :=
  decide (0 < event_id) && decide (1 ≤ user_id.length) && decide (user_id.length ≤ 255)

/-- Sequential execution of a batch of `reserve` calls for one event, one
transaction at a time — the serialization order the per-event `FOR UPDATE`
lock imposes on concurrent callers. -/
def reserveAll (s : DBState) (eventId : Int) :
    List String → List (Except AppError Booking) × DBState
  | [] => ([], s)
  | u :: rest =>
      let p := BookingRepository.createBooking s eventId u
      let q := reserveAll p.2 eventId rest
      (p.1 :: q.1, q.2)

/-- Did a `reserve` call succeed? -/
def isOk : Except AppError Booking → Bool
  | Except.ok _ => true
  | Except.error _ => false

/-- Did a `reserve` call fail with the capacity conflict? -/
def isNoSeats : Except AppError Booking → Bool
  | Except.error (AppError.conflict m) => m == "No seats available for this event"
  | _ => false

/-- Number of successful calls in a batch of results. -/
def countOk (rs : List (Except AppError Booking)) : Nat :=
  (rs.filter isOk).length

/-- Number of capacity-conflict failures in a batch of results. -/
def countNoSeats (rs : List (Except AppError Booking)) : Nat :=
  (rs.filter isNoSeats).length

/-- The oversell-freedom invariant: no event ever has more bookings than
seats. -/
def NoOversell (s : DBState) : Prop :=
  ∀ e ∈ s.events, countBookings s e.id ≤ e.total_seats

/-- The duplicate-freedom invariant: no two booking rows share the same
`(event_id, user_id)` pair. -/
def NoDuplicate (s : DBState) : Prop :=
  s.bookings.Pairwise (fun b1 b2 => b1.event_id ≠ b2.event_id ∨ b1.user_id ≠ b2.user_id)

/-- The `events.id` primary key: ids are pairwise distinct. -/
def EventIdsNodup (s : DBState) : Prop :=
  (s.events.map Event.id).Nodup

/-- The state produced by a successful insert of `(eventId, userId)`. -/
def insertedState (s : DBState) (eventId : Int) (userId : String) : DBState :=
  { s with
    bookings := { id := s.nextBookingId, event_id := eventId, user_id := userId } :: s.bookings,
    nextBookingId := s.nextBookingId + 1 }

/-! ## Branch characterization of the reservation transaction -/

lemma createBooking_of_none {s : DBState} {eventId : Int} (userId : String)
    (h : findEvent s eventId = none) :
    BookingRepository.createBooking s eventId userId =
      (Except.error (AppError.notFound
        ("Event with id " ++ toString eventId ++ " not found")), s) := by
  unfold BookingRepository.createBooking
  rw [h]

lemma createBooking_of_full {s : DBState} {eventId : Int} {ev : Event} (userId : String)
    (h : findEvent s eventId = some ev)
    (hfull : ev.total_seats ≤ countBookings s eventId) :
    BookingRepository.createBooking s eventId userId =
      (Except.error (AppError.conflict "No seats available for this event"), s) := by
  unfold BookingRepository.createBooking
  rw [h]
  simp [hfull]

lemma createBooking_of_dup {s : DBState} {eventId : Int} {ev : Event} (userId : String)
    (h : findEvent s eventId = some ev)
    (hroom : countBookings s eventId < ev.total_seats)
    (hdup : existsBooking s eventId userId = true) :
    BookingRepository.createBooking s eventId userId =
      (Except.error (AppError.conflict "User has already booked this event"), s) := by
  have hnotfull : ¬ countBookings s eventId ≥ ev.total_seats := by omega
  simp [BookingRepository.createBooking, dbInsertBooking, h, hnotfull, hdup]

lemma createBooking_of_free {s : DBState} {eventId : Int} {ev : Event} (userId : String)
    (h : findEvent s eventId = some ev)
    (hroom : countBookings s eventId < ev.total_seats)
    (hfree : existsBooking s eventId userId = false) :
    BookingRepository.createBooking s eventId userId =
      (Except.ok { id := s.nextBookingId, event_id := eventId, user_id := userId },
       insertedState s eventId userId) := by
  have hnotfull : ¬ countBookings s eventId ≥ ev.total_seats := by omega
  simp [BookingRepository.createBooking, dbInsertBooking, h, hnotfull, hfree,
    insertedState]

lemma createBooking_err_state {s : DBState} {eventId : Int} {userId : String} {err : AppError}
    (h : (BookingRepository.createBooking s eventId userId).1 = Except.error err) :
    (BookingRepository.createBooking s eventId userId).2 = s := by
  cases hf : findEvent s eventId with
  | none => rw [createBooking_of_none userId hf]
  | some ev =>
      by_cases hfull : ev.total_seats ≤ countBookings s eventId
      · rw [createBooking_of_full userId hf hfull]
      · push_neg at hfull
        cases hdup : existsBooking s eventId userId with
        | true => rw [createBooking_of_dup userId hf hfull hdup]
        | false =>
            rw [createBooking_of_free userId hf hfull hdup] at h
            exact absurd h (by simp)

lemma createBooking_ok_inv {s : DBState} {eventId : Int} {userId : String}
    {b : Booking} {s' : DBState}
    (h : BookingRepository.createBooking s eventId userId = (Except.ok b, s')) :
    ∃ ev, findEvent s eventId = some ev ∧
      countBookings s eventId < ev.total_seats ∧
      existsBooking s eventId userId = false ∧
      b = { id := s.nextBookingId, event_id := eventId, user_id := userId } ∧
      s' = insertedState s eventId userId := by
  cases hf : findEvent s eventId with
  | none =>
      rw [createBooking_of_none userId hf] at h
      simp [Prod.ext_iff] at h
  | some ev =>
      by_cases hfull : ev.total_seats ≤ countBookings s eventId
      · rw [createBooking_of_full userId hf hfull] at h
        simp [Prod.ext_iff] at h
      · push_neg at hfull
        cases hdup : existsBooking s eventId userId with
        | true =>
            rw [createBooking_of_dup userId hf hfull hdup] at h
            simp [Prod.ext_iff] at h
        | false =>
            rw [createBooking_of_free userId hf hfull hdup] at h
            have h1 := congrArg Prod.fst h
            have h2 := congrArg Prod.snd h
            simp only [Except.ok.injEq] at h1
            exact ⟨ev, rfl, hfull, rfl, h1.symm, h2.symm⟩

/-! ## Effect of a successful insert on the read queries -/

lemma findEvent_insertedState (s : DBState) (eventId : Int) (userId : String) (id2 : Int) :
    findEvent (insertedState s eventId userId) id2 = findEvent s id2 := rfl

lemma countBookings_insertedState (s : DBState) (eventId : Int) (userId : String) (id2 : Int) :
    countBookings (insertedState s eventId userId) id2 =
      countBookings s id2 + (if eventId = id2 then 1 else 0) := by
  by_cases h : eventId = id2 <;>
    simp [countBookings, insertedState, List.filter_cons, h]

lemma existsBooking_insertedState (s : DBState) (eventId : Int) (userId : String)
    (id2 : Int) (u2 : String) :
    existsBooking (insertedState s eventId userId) id2 u2 =
      (((eventId == id2) && (userId == u2)) || existsBooking s id2 u2) := rfl

lemma existsBooking_eq_false_iff {s : DBState} {eventId : Int} {userId : String} :
    existsBooking s eventId userId = false ↔
      ∀ b ∈ s.bookings, ¬(b.event_id = eventId ∧ b.user_id = userId) := by
  simp [existsBooking]

/-! ## Preservation of the two global invariants by the transaction -/

lemma noOversell_createBooking {s : DBState} (hids : EventIdsNodup s) (hinv : NoOversell s)
    (eventId : Int) (userId : String) :
    NoOversell (BookingRepository.createBooking s eventId userId).2 := by
  rcases hp : BookingRepository.createBooking s eventId userId with ⟨r, s'⟩
  cases r with
  | error err =>
      have h1 : (BookingRepository.createBooking s eventId userId).1 = Except.error err := by
        rw [hp]
      have h2 := createBooking_err_state h1
      rw [hp] at h2
      exact h2 ▸ hinv
  | ok b =>
      obtain ⟨ev, hf, hroom, hfree, hb, hs'⟩ := createBooking_ok_inv hp
      subst hs'
      intro e he
      have he' : e ∈ s.events := he
      rw [countBookings_insertedState]
      by_cases hid : eventId = e.id
      · rw [if_pos hid]
        have hev_mem : ev ∈ s.events := List.mem_of_find?_eq_some hf
        have hev_id : ev.id = eventId := by
          have := List.find?_some hf
          simpa using this
        have heq : e = ev :=
          List.inj_on_of_nodup_map hids he' hev_mem (by rw [hev_id, hid])
        rw [heq, hev_id]
        omega
      · rw [if_neg hid]
        have := hinv e he'
        omega

lemma noDuplicate_createBooking {s : DBState} (hnd : NoDuplicate s)
    (eventId : Int) (userId : String) :
    NoDuplicate (BookingRepository.createBooking s eventId userId).2 := by
  rcases hp : BookingRepository.createBooking s eventId userId with ⟨r, s'⟩
  cases r with
  | error err =>
      have h1 : (BookingRepository.createBooking s eventId userId).1 = Except.error err := by
        rw [hp]
      have h2 := createBooking_err_state h1
      rw [hp] at h2
      exact h2 ▸ hnd
  | ok b =>
      obtain ⟨ev, hf, hroom, hfree, hb, hs'⟩ := createBooking_ok_inv hp
      subst hs'
      have hall := existsBooking_eq_false_iff.mp hfree
      refine List.Pairwise.cons ?_ hnd
      intro b' hb'
      have h := hall b' hb'
      by_cases h1 : b'.event_id = eventId
      · right
        intro h2
        exact h ⟨h1, h2.symm⟩
      · left
        intro h2
        exact h1 h2.symm

/-! ## Counting the outcomes of a serialized batch of reserves -/

lemma countOk_cons_error (err : AppError) (rs : List (Except AppError Booking)) :
    countOk (Except.error err :: rs) = countOk rs := by
  simp [countOk, isOk, List.filter_cons]

lemma countOk_cons_ok (b : Booking) (rs : List (Except AppError Booking)) :
    countOk (Except.ok b :: rs) = countOk rs + 1 := by
  simp [countOk, isOk, List.filter_cons]

lemma countNoSeats_cons_noseats (rs : List (Except AppError Booking)) :
    countNoSeats (Except.error (AppError.conflict "No seats available for this event") :: rs) =
      countNoSeats rs + 1 := by
  simp [countNoSeats, isNoSeats, List.filter_cons]

lemma countNoSeats_cons_ok (b : Booking) (rs : List (Except AppError Booking)) :
    countNoSeats (Except.ok b :: rs) = countNoSeats rs := by
  simp [countNoSeats, isNoSeats, List.filter_cons]

/-- Inductive argument behind the no-oversell race property: serializing a
batch of distinct, not-yet-booked users against one event yields exactly
`min M (seats - current)` successes, the rest failing with the capacity
conflict. -/
lemma reserveAll_counts (eventId : Int) (ev : Event) :
    ∀ (users : List String) (s : DBState),
      findEvent s eventId = some ev → users.Nodup →
      (∀ u ∈ users, existsBooking s eventId u = false) →
      countOk (reserveAll s eventId users).1 =
        min users.length (ev.total_seats - countBookings s eventId) ∧
      countNoSeats (reserveAll s eventId users).1 =
        users.length - (ev.total_seats - countBookings s eventId) ∧
      (reserveAll s eventId users).1.length = users.length := by
  intro users
  induction users with
  | nil =>
      intro s _ _ _
      simp [reserveAll, countOk, countNoSeats]
  | cons u rest ih =>
      intro s hev hnodup hfresh
      have hu : existsBooking s eventId u = false := hfresh u (List.mem_cons_self u rest)
      by_cases hfull : ev.total_seats ≤ countBookings s eventId
      · have hstep := createBooking_of_full u hev hfull
        have hrest := ih s hev (List.nodup_cons.mp hnodup).2
          (fun u' hu' => hfresh u' (List.mem_cons_of_mem u hu'))
        have hgoal : reserveAll s eventId (u :: rest) =
            (Except.error (AppError.conflict "No seats available for this event") ::
               (reserveAll s eventId rest).1,
             (reserveAll s eventId rest).2) := by
          simp [reserveAll, hstep]
        rw [hgoal]
        rcases hrest with ⟨h1, h2, h3⟩
        refine ⟨?_, ?_, ?_⟩
        · rw [countOk_cons_error, h1]
          simp only [List.length_cons]
          omega
        · rw [countNoSeats_cons_noseats, h2]
          simp only [List.length_cons]
          omega
        · simp [h3]
      · push_neg at hfull
        have hstep := createBooking_of_free u hev hfull hu
        have hev' : findEvent (insertedState s eventId u) eventId = some ev := by
          rw [findEvent_insertedState]
          exact hev
        have hcount' : countBookings (insertedState s eventId u) eventId =
            countBookings s eventId + 1 := by
          rw [countBookings_insertedState]
          simp
        have hfresh' : ∀ u' ∈ rest, existsBooking (insertedState s eventId u) eventId u' = false := by
          intro u' hu'
          rw [existsBooking_insertedState]
          have hne : u ≠ u' := by
            intro hEq
            subst hEq
            exact (List.nodup_cons.mp hnodup).1 hu'
          simp [hne, hfresh u' (List.mem_cons_of_mem u hu')]
        have hrest := ih (insertedState s eventId u) hev' (List.nodup_cons.mp hnodup).2 hfresh'
        have hgoal : reserveAll s eventId (u :: rest) =
            (Except.ok { id := s.nextBookingId, event_id := eventId, user_id := u } ::
               (reserveAll (insertedState s eventId u) eventId rest).1,
             (reserveAll (insertedState s eventId u) eventId rest).2) := by
          simp [reserveAll, hstep]
        rw [hgoal]
        rcases hrest with ⟨h1, h2, h3⟩
        rw [hcount'] at h1 h2
        refine ⟨?_, ?_, ?_⟩
        · rw [countOk_cons_ok, h1]
          simp only [List.length_cons]
          omega
        · rw [countNoSeats_cons_ok, h2]
          simp only [List.length_cons]
          omega
        · simp [h3]

/-! ## Concrete states used by the witnesses -/

/-- A fresh catalog: two events, no bookings (mirrors the seed data of the
migration). -/
def demoState : DBState :=
  { events := [ { id := 1, name := "Tech Conference 2025", total_seats := 2 },
                { id := 3, name := "Workshop", total_seats := 30 } ],
    bookings := [],
    nextBookingId := 1 }

/-- A state whose single event is fully booked. -/
def fullState : DBState :=
  { events := [ { id := 1, name := "Sold Out Gig", total_seats := 1 } ],
    bookings := [ { id := 1, event_id := 1, user_id := "alice" } ],
    nextBookingId := 2 }

/-! ## The claims -/

/-- C3: Atomicity on failure — whenever `reserve` (at the repository or the
service layer) returns any error, the transaction is rolled back and the
database state is unchanged: no row is inserted and no count changes. -/
theorem reserve_error_rolls_back (s : DBState) (eventId : Int) (userId : String) :
    (∀ err, (BookingRepository.createBooking s eventId userId).1 = Except.error err →
      (BookingRepository.createBooking s eventId userId).2 = s) ∧
    (∀ err, (BookingService.createBooking s eventId userId).1 = Except.error err →
      (BookingService.createBooking s eventId userId).2 = s) := by
  constructor
  · intro err h
    exact createBooking_err_state h
  · intro err h
    unfold BookingService.createBooking at h ⊢
    cases hg : EventRepository.getEventById s eventId with
    | error e => rfl
    | ok ev =>
        rw [hg] at h
        exact createBooking_err_state h

theorem reserve_error_rolls_back_witness :
    (BookingRepository.createBooking demoState 99 "u").2 = demoState ∧
    (BookingService.createBooking demoState 99 "u").2 = demoState := by
  exact ⟨(reserve_error_rolls_back demoState 99 "u").1
      (AppError.notFound ("Event with id " ++ toString (99 : Int) ++ " not found")) rfl,
    (reserve_error_rolls_back demoState 99 "u").2
      (AppError.notFound ("Event with id " ++ toString (99 : Int) ++ " not found")) rfl⟩

/-- C4: Nonexistent event on reserve — `reserve` fails with `NotFound`
exactly when no event with the given id exists; when the event exists the
result is never a `NotFound` error. -/
theorem reserve_notFound_iff (s : DBState) (eventId : Int) (userId : String) :
    (findEvent s eventId = none →
      (BookingService.createBooking s eventId userId).1 =
        Except.error (AppError.notFound
          ("Event with id " ++ toString eventId ++ " not found"))) ∧
    (∀ ev, findEvent s eventId = some ev →
      ∀ m, (BookingService.createBooking s eventId userId).1 ≠
        Except.error (AppError.notFound m)) := by
  constructor
  · intro h
    unfold BookingService.createBooking EventRepository.getEventById
    rw [h]
  · intro ev hev m
    unfold BookingService.createBooking EventRepository.getEventById
    rw [hev]
    by_cases hfull : ev.total_seats ≤ countBookings s eventId
    · rw [createBooking_of_full userId hev hfull]
      simp
    · push_neg at hfull
      cases hdupb : existsBooking s eventId userId with
      | true =>
          rw [createBooking_of_dup userId hev hfull hdupb]
          simp
      | false =>
          rw [createBooking_of_free userId hev hfull hdupb]
          simp

theorem reserve_notFound_iff_witness :
    (BookingService.createBooking demoState 99 "u").1 =
      Except.error (AppError.notFound
        ("Event with id " ++ toString (99 : Int) ++ " not found")) ∧
    (BookingService.createBooking demoState 1 "u").1 ≠
      Except.error (AppError.notFound "Event with id 1 not found") := by
  exact ⟨(reserve_notFound_iff demoState 99 "u").1 rfl,
    (reserve_notFound_iff demoState 1 "u").2
      { id := 1, name := "Tech Conference 2025", total_seats := 2 } rfl
      "Event with id 1 not found"⟩

/-- C5: Capacity-exhausted path — for an existing event whose current
reservation count has reached `total_seats`, `reserve` fails with the
`Conflict` error `"No seats available for this event"` and the state is
unchanged (nothing inserted). -/
theorem capacity_exhausted_conflict (s : DBState) (eventId : Int) (userId : String)
    (ev : Event)
    (hev : findEvent s eventId = some ev)
    (hfull : ev.total_seats ≤ countBookings s eventId) :
    BookingRepository.createBooking s eventId userId =
      (Except.error (AppError.conflict "No seats available for this event"), s) :=
  createBooking_of_full userId hev hfull

theorem capacity_exhausted_conflict_witness :
    BookingRepository.createBooking fullState 1 "bob" =
      (Except.error (AppError.conflict "No seats available for this event"), fullState) :=
  capacity_exhausted_conflict fullState 1 "bob"
    { id := 1, name := "Sold Out Gig", total_seats := 1 } rfl (by decide)

/-- C6: Already-booked path — after a successful `reserve(E, U)`, a second
`reserve(E, U)` while seats remain fails with the `Conflict` error
`"User has already booked this event"`, and that failure comes from the
storage-layer insert raising SQLSTATE `23505` (the unique-constraint code),
which the repository translates — not from re-deriving application state. -/
theorem already_booked_conflict (s : DBState) (eventId : Int) (userId : String)
    (b : Booking) (s' : DBState) (ev : Event)
    (hfirst : BookingRepository.createBooking s eventId userId = (Except.ok b, s'))
    (hev : findEvent s' eventId = some ev)
    (hroom : countBookings s' eventId < ev.total_seats) :
    BookingRepository.createBooking s' eventId userId =
      (Except.error (AppError.conflict "User has already booked this event"), s') ∧
    dbInsertBooking s' eventId userId = Except.error { code := "23505" } := by
  obtain ⟨ev0, hf0, hroom0, hfree0, hb0, hs0⟩ := createBooking_ok_inv hfirst
  subst hs0
  have hex : existsBooking (insertedState s eventId userId) eventId userId = true := by
    rw [existsBooking_insertedState]
    simp
  refine ⟨createBooking_of_dup userId hev hroom hex, ?_⟩
  unfold dbInsertBooking
  rw [if_pos hex]

theorem already_booked_conflict_witness :
    BookingRepository.createBooking (insertedState demoState 1 "alice") 1 "alice" =
      (Except.error (AppError.conflict "User has already booked this event"),
       insertedState demoState 1 "alice") :=
  (already_booked_conflict demoState 1 "alice"
    { id := 1, event_id := 1, user_id := "alice" }
    (insertedState demoState 1 "alice")
    { id := 1, name := "Tech Conference 2025", total_seats := 2 }
    rfl rfl (by decide)).1

/-- C7: `availableSeats` correctness — for an existing event the result is
`total_seats - count(bookings)` (so zero reservations yield the full
capacity, e.g. 30 for a 30-seat event with no bookings); for a nonexistent
event it fails with `NotFound`. -/
theorem availableSeats_spec (s : DBState) (eventId : Int) :
    (∀ ev, findEvent s eventId = some ev →
      EventRepository.getAvailableSeats s eventId =
        Except.ok ((ev.total_seats : Int) - (countBookings s eventId : Int)) ∧
      (countBookings s eventId = 0 →
        EventRepository.getAvailableSeats s eventId = Except.ok (ev.total_seats : Int))) ∧
    (findEvent s eventId = none →
      EventRepository.getAvailableSeats s eventId =
        Except.error (AppError.notFound
          ("Event with id " ++ toString eventId ++ " not found"))) := by
  constructor
  · intro ev hev
    constructor
    · unfold EventRepository.getAvailableSeats
      rw [hev]
    · intro h0
      unfold EventRepository.getAvailableSeats
      rw [hev, h0]
      simp
  · intro h
    unfold EventRepository.getAvailableSeats
    rw [h]

theorem availableSeats_spec_witness :
    EventRepository.getAvailableSeats demoState 3 = Except.ok 30 :=
  ((availableSeats_spec demoState 3).1
    { id := 3, name := "Workshop", total_seats := 30 } rfl).2 rfl

/-- C8: Read-after-write coupling — once `reserve(E, U)` succeeds,
`checkBookingExists(E, U)` returns `true` and `availableSeats(E)` is exactly
one less than before the reserve, in the committed state every subsequent
caller reads. -/
theorem read_after_write (s : DBState) (eventId : Int) (userId : String)
    (b : Booking) (s' : DBState) (a : Int)
    (hok : BookingRepository.createBooking s eventId userId = (Except.ok b, s'))
    (ha : EventRepository.getAvailableSeats s eventId = Except.ok a) :
    BookingRepository.checkBookingExists s' eventId userId = true ∧
    EventRepository.getAvailableSeats s' eventId = Except.ok (a - 1) := by
  obtain ⟨ev, hev, hroom, hfree, hb, hs'⟩ := createBooking_ok_inv hok
  subst hs'
  constructor
  · unfold BookingRepository.checkBookingExists
    rw [existsBooking_insertedState]
    simp
  · have ha' : a = (ev.total_seats : Int) - (countBookings s eventId : Int) := by
      unfold EventRepository.getAvailableSeats at ha
      rw [hev] at ha
      simpa using ha.symm
    unfold EventRepository.getAvailableSeats
    rw [findEvent_insertedState, hev, countBookings_insertedState, if_pos rfl, ha']
    push_cast
    ring_nf

theorem read_after_write_witness :
    BookingRepository.checkBookingExists (insertedState demoState 1 "alice") 1 "alice" = true ∧
    EventRepository.getAvailableSeats (insertedState demoState 1 "alice") 1 =
      Except.ok (2 - 1) :=
  read_after_write demoState 1 "alice"
    { id := 1, event_id := 1, user_id := "alice" }
    (insertedState demoState 1 "alice") 2 rfl rfl

/-- C1: No oversell — `reserve` preserves the invariant that no event has
more bookings than `total_seats` (capacity count and insert are one atomic
per-event step), and when `M > N` distinct not-yet-booked users race against
a fresh event of capacity `N` in any serialization order, exactly `N` calls
succeed and the remaining `M - N` fail with the no-seats conflict. -/
theorem no_oversell_invariant_and_race (s : DBState)
    (hids : EventIdsNodup s) (hinv : NoOversell s) :
    (∀ eventId userId, NoOversell (BookingRepository.createBooking s eventId userId).2) ∧
    (∀ eventId ev users,
      findEvent s eventId = some ev → countBookings s eventId = 0 →
      users.Nodup → (∀ u ∈ users, existsBooking s eventId u = false) →
      ev.total_seats < users.length →
      countOk (reserveAll s eventId users).1 = ev.total_seats ∧
      countNoSeats (reserveAll s eventId users).1 = users.length - ev.total_seats ∧
      (reserveAll s eventId users).1.length = users.length) := by
  constructor
  · intro eventId userId
    exact noOversell_createBooking hids hinv eventId userId
  · intro eventId ev users hev h0 hnd hfr hM
    obtain ⟨h1, h2, h3⟩ := reserveAll_counts eventId ev users s hev hnd hfr
    rw [h0] at h1 h2
    refine ⟨?_, ?_, h3⟩
    · rw [h1]
      omega
    · rw [h2]
      omega

theorem no_oversell_invariant_and_race_witness :
    NoOversell (BookingRepository.createBooking demoState 1 "u").2 ∧
    countOk (reserveAll demoState 1 ["a", "b", "c"]).1 = 2 ∧
    countNoSeats (reserveAll demoState 1 ["a", "b", "c"]).1 = 1 := by
  have h := no_oversell_invariant_and_race demoState
    (by unfold EventIdsNodup; decide) (by unfold NoOversell; decide)
  have h2 := h.2 1 { id := 1, name := "Tech Conference 2025", total_seats := 2 }
    ["a", "b", "c"] rfl rfl (by decide) (by decide) (by decide)
  exact ⟨h.1 1 "u", h2.1, h2.2.1⟩

/-- C2: No duplicate — `reserve` (the only write) preserves the invariant
that no two booking rows share an `(event_id, user_id)` pair, and the
storage-layer unique constraint enforces it independently: an insert for an
existing pair fails at the database with SQLSTATE `23505`. -/
theorem no_duplicate_invariant (s : DBState) (eventId : Int) (userId : String) :
    (NoDuplicate s → NoDuplicate (BookingRepository.createBooking s eventId userId).2) ∧
    (existsBooking s eventId userId = true →
      dbInsertBooking s eventId userId = Except.error { code := "23505" }) := by
  constructor
  · intro hnd
    exact noDuplicate_createBooking hnd eventId userId
  · intro hex
    unfold dbInsertBooking
    rw [if_pos hex]

theorem no_duplicate_invariant_witness :
    NoDuplicate (BookingRepository.createBooking demoState 1 "alice").2 ∧
    dbInsertBooking fullState 1 "alice" = Except.error { code := "23505" } :=
  ⟨(no_duplicate_invariant demoState 1 "alice").1 List.Pairwise.nil,
   (no_duplicate_invariant fullState 1 "alice").2 rfl⟩

/-- C9 counterexample: the core does not reject invalid inputs with an
`InvalidArgument`-style error — a reserve with an empty `userId` reaching
the core simply succeeds when seats remain, and a reserve with a
non-positive `eventId` fails with `NotFound`, not with a 400-class error. -/
theorem core_skips_input_validation :
    (BookingService.createBooking demoState 1 "").1 =
      Except.ok { id := 1, event_id := 1, user_id := "" } ∧
    (BookingService.createBooking demoState (-5) "u").1 =
      Except.error (AppError.notFound
        ("Event with id " ++ toString (-5 : Int) ++ " not found")) := by
  constructor
  · rfl
  · rfl

/-- C9 amended: the input constraints (positive integer `eventId`,
`userId` of length 1–255) are enforced only by the caller-side validator
`createBookingSchema`; the core itself performs no `InvalidArgument`
rejection — a non-positive `eventId` reaching the core fails with
`NotFound`, because event ids in storage are positive. -/
theorem validator_guards_inputs (eventId : Int) (userId : String) (s : DBState) :
    (createBookingSchemaCheck eventId userId = true ↔
      (0 < eventId ∧ 1 ≤ userId.length ∧ userId.length ≤ 255)) ∧
    (eventId ≤ 0 → (∀ e ∈ s.events, 0 < e.id) →
      (BookingService.createBooking s eventId userId).1 =
        Except.error (AppError.notFound
          ("Event with id " ++ toString eventId ++ " not found"))) := by
  constructor
  · simp [createBookingSchemaCheck, and_assoc]
  · intro hneg hpos
    have hnone : findEvent s eventId = none := by
      unfold findEvent
      apply List.find?_eq_none.mpr
      intro e he
      have := hpos e he
      simp only [beq_iff_eq]
      omega
    unfold BookingService.createBooking EventRepository.getEventById
    rw [hnone]

theorem validator_guards_inputs_witness :
    createBookingSchemaCheck 1 "alice" = true ∧
    (BookingService.createBooking demoState (-7) "alice").1 =
      Except.error (AppError.notFound
        ("Event with id " ++ toString (-7 : Int) ++ " not found")) :=
  ⟨(validator_guards_inputs 1 "alice" demoState).1.mpr (by decide),
   (validator_guards_inputs (-7) "alice" demoState).2 (by decide) (by decide)⟩

/-- C10: Asymmetry of the list reads — the service's `getBookingsByEventId`
verifies the event's existence first, so an unknown event yields `NotFound`
rather than `[]`; `getBookingsByUserId` performs no such check and always
returns a (possibly empty) list, never an error. -/
theorem list_reads_asymmetry (s : DBState) (eventId : Int) (userId : String) :
    (findEvent s eventId = none →
      BookingService.getBookingsByEventId s eventId =
        Except.error (AppError.notFound
          ("Event with id " ++ toString eventId ++ " not found"))) ∧
    (∀ ev, findEvent s eventId = some ev →
      BookingService.getBookingsByEventId s eventId =
        Except.ok (BookingRepository.getBookingsByEventId s eventId)) ∧
    (BookingService.getBookingsByUserId s userId =
      Except.ok (BookingRepository.getBookingsByUserId s userId)) ∧
    ((∀ b ∈ s.bookings, b.user_id ≠ userId) →
      BookingService.getBookingsByUserId s userId = Except.ok []) := by
  refine ⟨?_, ?_, rfl, ?_⟩
  · intro h
    unfold BookingService.getBookingsByEventId EventRepository.getEventById
    rw [h]
  · intro ev hev
    unfold BookingService.getBookingsByEventId EventRepository.getEventById
    rw [hev]
  · intro h
    have hnil : s.bookings.filter (fun b => b.user_id == userId) = [] := by
      rw [List.filter_eq_nil_iff]
      intro b hb
      simpa using h b hb
    unfold BookingService.getBookingsByUserId BookingRepository.getBookingsByUserId
    rw [hnil]

theorem list_reads_asymmetry_witness :
    BookingService.getBookingsByEventId demoState 99 =
      Except.error (AppError.notFound
        ("Event with id " ++ toString (99 : Int) ++ " not found")) ∧
    BookingService.getBookingsByUserId demoState "nobody" = Except.ok [] :=
  ⟨(list_reads_asymmetry demoState 99 "nobody").1 rfl,
   (list_reads_asymmetry demoState 99 "nobody").2.2.2 (by decide)⟩

end EventBooking
